import Mathlib

/-!
Shallow embedding of `src/typst-ffi/src/lib.rs` (the `go-typst` FFI layer).

Modelling conventions:
* A filesystem path is a list of components; a component is a list of bytes
  (Rust `str` data).  `Path::join` on a rootless right-hand side is list
  append, and `Path::starts_with` is component-wise list prefix.
* Filesystem operations are parameters: `canon : Path → Option Path` models
  `std::fs::canonicalize` (`none` = the OS call failed, e.g. the path does
  not exist), `readFile : Path → Option (List Nat)` models `std::fs::read`.
  Symlinks are captured by `canon` being an arbitrary function.
* The opaque typst engine (`typst::compile`) and the PDF serializer
  (`typst_pdf::pdf`) are parameters of the boundary-adapter model.
* Font decoding (`typst::text::Font::new`) is a parameter
  `fontNew : FontData → Nat → Option Font`.  The Rust face-loading loop
  `for index in 0..` is unbounded; it is embedded with an explicit fuel
  argument, and theorems assume the first failing index lies below the fuel,
  which is exactly the situation in which the Rust loop terminates.
* Machine integers are `Int` with explicit range checks where overflow or
  out-of-range panics matter (`chrono` time arithmetic).
-/

namespace TypstFfi

/-- A single path component (the bytes of one `str` segment). -/
abbrev Component := List Nat

/-- A filesystem path, as its list of components. -/
abbrev Path := List Component

/-- A typst package descriptor: namespace, name and rendered version string
(`PackageSpec` in typst; the code uses `pkg.namespace`, `pkg.name`,
`pkg.version.to_string()`). -/
structure PackageSpec where
  ns : Component
  name : Component
  version : Component
deriving DecidableEq

/-- Model of `typst::syntax::FileId`: an optional package descriptor plus the rootless
virtual path (`id.vpath().as_rootless_path()` strips leading separators, so
`vpath` is stored rootless here). -/
structure FileId where
  pkg : Option PackageSpec
  vpath : Path
deriving DecidableEq

/-- The two `typst::diag::FileError` variants produced by this code. -/
inductive FileError where
  | NotFound (p : Path)
  | AccessDenied
deriving DecidableEq

/-- Model of `typst::syntax::Source`: a file id paired with its text (text is kept as
its UTF-8 bytes, exactly the representation of a Rust `str`). -/
structure Source where
  id : FileId
  text : List Nat
deriving DecidableEq

/-- The component list of the hard-coded main file `VirtualPath::new("/main.typ")`
after `as_rootless_path`: the single component "main.typ". -/
def mainTypPath : Path := [[109, 97, 105, 110, 46, 116, 121, 112]]

/-- Model of `SharedResources`: library table, font book, face table, main id.  The
`Library` is the opaque fixed default, modelled as `Unit`; `Font` and
`FontInfo` are the opaque face and descriptor types of the engine. -/
structure SharedResources (Font FontInfo : Type) where
  library : Unit
  book : List FontInfo
  fonts : List Font
  main_id : FileId

/-- The inner Rust loop `for index in 0.. { match Font::new(bytes, index) ... }`
started at `index`, with explicit fuel bounding the number of iterations
(the Rust loop is unbounded; every theorem below assumes the first failing
index is reached within the fuel, which is when the Rust loop terminates). -/
def loadFacesFrom {Font : Type} (fontNew : Nat → Option Font) : Nat → Nat → List Font
  | _, 0 => []
  | index, fuel + 1 =>
    match fontNew index with
    | some font => font :: loadFacesFrom fontNew (index + 1) fuel
    | none => []

/-- All faces decoded from one blob: indices from 0 until the first failure. -/
def loadFaces {FontData Font : Type} (fontNew : FontData → Nat → Option Font)
    (data : FontData) (fuel : Nat) : List Font :=
  loadFacesFrom (fontNew data) 0 fuel

/-- Model of `SharedResources::new`: decode every bundled blob, then every custom blob,
appending each decoded face to the face table; then build the book by pushing
one descriptor per face in face order; the library is the fixed default and
the main id is `/main.typ`. -/
def SharedResources.new {FontData Font FontInfo : Type}
    (fontNew : FontData → Nat → Option Font) (fontInfo : Font → FontInfo)
    (bundled custom_font_data : List FontData) (fuel : Nat) :
    SharedResources Font FontInfo :=
  let fonts :=
    (bundled.map (fun data => loadFaces fontNew data fuel)).flatten ++
    (custom_font_data.map (fun data => loadFaces fontNew data fuel)).flatten
  { library := ()
    book := fonts.map fontInfo
    fonts := fonts
    main_id := { pkg := none, vpath := mainTypPath } }

/-- Per-blob face-count specification: decoding succeeds at each index below
`k` and fails at `k` (so the Rust loop yields exactly `k` faces). -/
def yieldsFaces {FontData Font : Type} (fontNew : FontData → Nat → Option Font)
    (data : FontData) (k : Nat) : Prop :=
  (∀ j, j < k → (fontNew data j).isSome = true) ∧ (fontNew data k).isNone = true

instance {FontData Font : Type} (fontNew : FontData → Nat → Option Font)
    (data : FontData) (k : Nat) : Decidable (yieldsFaces fontNew data k) := by
  unfold yieldsFaces; infer_instance

/-- Model of `SingleSourceWorld`: a reference to the shared resources, the single
in-memory source, and the per-call resolver roots. -/
structure SingleSourceWorld (Font FontInfo : Type) where
  shared : SharedResources Font FontInfo
  source : Source
  root : Option Path
  canonical_root : Option Path
  package_cache : Option Path

/-- Model of `SingleSourceWorld::new`: wraps the text as the main source and
pre-computes `canonical_root = root.as_ref().and_then(|r| r.canonicalize().ok())`. -/
def SingleSourceWorld.new {Font FontInfo : Type} (canon : Path → Option Path)
    (shared : SharedResources Font FontInfo) (source_text : List Nat)
    (root package_cache : Option Path) : SingleSourceWorld Font FontInfo :=
  { shared := shared
    source := { id := shared.main_id, text := source_text }
    root := root
    canonical_root := root.bind (fun r => canon r)
    package_cache := package_cache }

/-- The `let (base, canonical_base) = if let Some(pkg) = id.package() ...`
block of `resolve_path`: picks the resolution domain and canonicalizes the
base root, failing with `NotFound(vpath)` when the relevant root is not
configured or the package base does not canonicalize. -/
def resolve_base {Font FontInfo : Type} (canon : Path → Option Path)
    (w : SingleSourceWorld Font FontInfo) (id : FileId) :
    Except FileError (Path × Path) :=
  match id.pkg with
  | some pkg =>
    match w.package_cache with
    | none => .error (.NotFound id.vpath)
    | some cache =>
      let b := cache ++ [pkg.ns, pkg.name, pkg.version]
      match canon b with
      | none => .error (.NotFound id.vpath)
      | some cb => .ok (b, cb)
  | none =>
    match w.root with
    | none => .error (.NotFound id.vpath)
    | some b =>
      match w.canonical_root with
      | none => .error (.NotFound id.vpath)
      | some cb => .ok (b, cb)

/-- Model of `SingleSourceWorld::resolve_path`: pick the base pair, join the rootless
vpath, canonicalize the candidate (`NotFound` on failure), then the
containment check `canonical.starts_with(&canonical_base)`, failing with
`AccessDenied` when it does not hold. -/
def resolve_path {Font FontInfo : Type} (canon : Path → Option Path)
    (w : SingleSourceWorld Font FontInfo) (id : FileId) :
    Except FileError Path :=
  match resolve_base canon w id with
  | .error e => .error e
  | .ok (base, canonical_base) =>
    match canon (base ++ id.vpath) with
    | none => .error (.NotFound id.vpath)
    | some canonical =>
      if canonical_base.isPrefixOf canonical then .ok canonical
      else .error .AccessDenied

/-- One step of UTF-8 validation as in `std::str::from_utf8`: `i` is the byte
index of the current position, returned inside `.error` as the error
position when validation fails (`Utf8Error::valid_up_to`). -/
def from_utf8Aux : Nat → List Nat → Except Nat Unit
  | _, [] => .ok ()
  | i, b :: rest =>
    if b < 128 then from_utf8Aux (i + 1) rest
    else if 194 ≤ b ∧ b ≤ 223 then
      match rest with
      | c1 :: rest2 =>
        if 128 ≤ c1 ∧ c1 ≤ 191 then from_utf8Aux (i + 2) rest2 else .error i
      | [] => .error i
    else if b = 224 then
      match rest with
      | c1 :: c2 :: rest2 =>
        if (160 ≤ c1 ∧ c1 ≤ 191) ∧ (128 ≤ c2 ∧ c2 ≤ 191) then
          from_utf8Aux (i + 3) rest2
        else .error i
      | _ => .error i
    else if 225 ≤ b ∧ b ≤ 236 then
      match rest with
      | c1 :: c2 :: rest2 =>
        if (128 ≤ c1 ∧ c1 ≤ 191) ∧ (128 ≤ c2 ∧ c2 ≤ 191) then
          from_utf8Aux (i + 3) rest2
        else .error i
      | _ => .error i
    else if b = 237 then
      match rest with
      | c1 :: c2 :: rest2 =>
        if (128 ≤ c1 ∧ c1 ≤ 159) ∧ (128 ≤ c2 ∧ c2 ≤ 191) then
          from_utf8Aux (i + 3) rest2
        else .error i
      | _ => .error i
    else if 238 ≤ b ∧ b ≤ 239 then
      match rest with
      | c1 :: c2 :: rest2 =>
        if (128 ≤ c1 ∧ c1 ≤ 191) ∧ (128 ≤ c2 ∧ c2 ≤ 191) then
          from_utf8Aux (i + 3) rest2
        else .error i
      | _ => .error i
    else if b = 240 then
      match rest with
      | c1 :: c2 :: c3 :: rest2 =>
        if (144 ≤ c1 ∧ c1 ≤ 191) ∧ (128 ≤ c2 ∧ c2 ≤ 191) ∧ (128 ≤ c3 ∧ c3 ≤ 191) then
          from_utf8Aux (i + 4) rest2
        else .error i
      | _ => .error i
    else if 241 ≤ b ∧ b ≤ 243 then
      match rest with
      | c1 :: c2 :: c3 :: rest2 =>
        if (128 ≤ c1 ∧ c1 ≤ 191) ∧ (128 ≤ c2 ∧ c2 ≤ 191) ∧ (128 ≤ c3 ∧ c3 ≤ 191) then
          from_utf8Aux (i + 4) rest2
        else .error i
      | _ => .error i
    else if b = 244 then
      match rest with
      | c1 :: c2 :: c3 :: rest2 =>
        if (128 ≤ c1 ∧ c1 ≤ 143) ∧ (128 ≤ c2 ∧ c2 ≤ 191) ∧ (128 ≤ c3 ∧ c3 ≤ 191) then
          from_utf8Aux (i + 4) rest2
        else .error i
      | _ => .error i
    else .error i

/-- Model of `std::str::from_utf8` on a byte buffer: on success the `str` is the same
bytes; on failure the error carries the index where validation failed. -/
def from_utf8 (bytes : List Nat) : Except Nat (List Nat) :=
  match from_utf8Aux 0 bytes with
  | .ok _ => .ok bytes
  | .error i => .error i

/-- Model of `SingleSourceWorld::source(id)`: the main source is answered from memory;
any other id goes through `resolve_path`, then `std::fs::read_to_string`
(modelled as a raw read followed by UTF-8 validation, either failure mapped
to `NotFound(vpath)`). -/
def SingleSourceWorld.sourceFn {Font FontInfo : Type} (canon : Path → Option Path)
    (readFile : Path → Option (List Nat)) (w : SingleSourceWorld Font FontInfo)
    (id : FileId) : Except FileError Source :=
  if id = w.source.id then .ok w.source
  else
    match resolve_path canon w id with
    | .error e => .error e
    | .ok path =>
      match readFile path with
      | none => .error (.NotFound id.vpath)
      | some bytes =>
        match from_utf8 bytes with
        | .error _ => .error (.NotFound id.vpath)
        | .ok text => .ok { id := id, text := text }

/-- Model of `SingleSourceWorld::file(id)`: always `resolve_path` then `std::fs::read`,
read failure mapped to `NotFound(vpath)`; no special case for the main id. -/
def SingleSourceWorld.file {Font FontInfo : Type} (canon : Path → Option Path)
    (readFile : Path → Option (List Nat)) (w : SingleSourceWorld Font FontInfo)
    (id : FileId) : Except FileError (List Nat) :=
  match resolve_path canon w id with
  | .error e => .error e
  | .ok path =>
    match readFile path with
    | none => .error (.NotFound id.vpath)
    | some data => .ok data

/-- Model of `SingleSourceWorld::font(index)`: `self.shared.fonts.get(index).cloned()`. -/
def SingleSourceWorld.font {Font FontInfo : Type}
    (w : SingleSourceWorld Font FontInfo) (index : Nat) : Option Font :=
  w.shared.fonts.get? index

/-- Civil-calendar date (year, month, day) of a day count relative to
1970-01-01, the standard days-to-civil conversion used to model
`chrono`'s `Datelike::year/month/day` accessors. -/
def civilFromDays (z0 : Int) : Int × Nat × Nat :=
  let z := z0 + 719468
  let era := Int.ediv z 146097
  let doe := (z - era * 146097).toNat
  let yoe := (doe - doe / 1460 + doe / 36524 - doe / 146096) / 365
  let doy := doe - (365 * yoe + yoe / 4 - yoe / 100)
  let mp := (5 * doy + 2) / 153
  let d := doy - (153 * mp + 2) / 5 + 1
  let m := if mp < 10 then mp + 3 else mp - 9
  ((yoe : Int) + era * 400 + (if m ≤ 2 then 1 else 0), m, d)

/-- Leap-year test (proleptic Gregorian). -/
def isLeap (y : Int) : Bool := y % 4 == 0 && (y % 100 != 0 || y % 400 == 0)

/-- Days in a month of a given year. -/
def daysInMonth (y : Int) (m : Nat) : Nat :=
  if m = 2 then (if isLeap y then 29 else 28)
  else if m = 4 ∨ m = 6 ∨ m = 9 ∨ m = 11 then 30
  else 31

/-- The value of `i64::MAX`. -/
def i64Max : Int := 9223372036854775807

/-- Bound (in seconds) of a `chrono::TimeDelta`: `i64::MAX` milliseconds,
so at second granularity `i64::MAX / 1000` seconds. -/
def timeDeltaMaxSecs : Int := 9223372036854775

/-- Model of `chrono::TimeDelta::try_hours`: `hours.checked_mul(3600)` (failing on
`i64` overflow) followed by the `TimeDelta` range check; `none` is exactly
the case in which `chrono::Duration::hours` panics. -/
def tryHours (h : Int) : Option Int :=
  let prod := h * 3600
  if prod < -i64Max - 1 ∨ i64Max < prod then none
  else if prod < -timeDeltaMaxSecs ∨ timeDeltaMaxSecs < prod then none
  else some prod

/-- The year range of a `chrono` `NaiveDate`/`NaiveDateTime`; a shifted
datetime whose civil year falls outside it makes
`NaiveDateTime + TimeDelta` panic with an overflow. -/
def naiveDateTimeInRange (secs : Int) : Prop :=
  let y := (civilFromDays (Int.ediv secs 86400)).1
  (-262144) ≤ y ∧ y ≤ 262142

instance (secs : Int) : Decidable (naiveDateTimeInRange secs) := by
  unfold naiveDateTimeInRange; infer_instance

/-- Outcome of one `today` call.  `panic` marks the abnormal termination of
the Rust code (a `chrono` panic unwinding out of the capability method);
`unavailable` is `None` (the "date not representable" result); `date` is
`Some(Datetime)`. -/
inductive TodayOutcome where
  | panic
  | unavailable
  | date (year : Int) (month day : Nat)
deriving DecidableEq

/-- Model of `Datetime::from_ymd(year, month.try_into().ok()?, day.try_into().ok()?)`:
the two `u8` conversions, then typst's `Datetime::from_ymd`, which accepts
exactly the valid dates of the `chrono` year range. -/
def datetimeFromYmd (y : Int) (m d : Nat) : TodayOutcome :=
  if m ≤ 255 ∧ d ≤ 255 then
    if (1 ≤ m ∧ m ≤ 12) ∧ (1 ≤ d ∧ d ≤ daysInMonth y m) ∧ (-262144 ≤ y ∧ y ≤ 262142)
    then .date y m d
    else .unavailable
  else .unavailable

/-- Date components of a naive datetime given as seconds, fed to
`Datetime::from_ymd`. -/
def todayFromSecs (secs : Int) : TodayOutcome :=
  match civilFromDays (Int.ediv secs 86400) with
  | (y, m, d) => datetimeFromYmd y m d

/-- Model of `SingleSourceWorld::today(offset)`.  The current instant is a parameter:
`now_utc_secs` is `Local::now()` as seconds since the epoch in UTC and
`tz_offset_secs` the local timezone offset, so `naive_local` is their sum.
With an offset, the code computes `now.naive_utc() + chrono::Duration::hours(o)`:
`Duration::hours` panics when out of `TimeDelta` bounds, and the addition
panics when the shifted datetime leaves the `NaiveDateTime` range. -/
def today (now_utc_secs tz_offset_secs : Int) (offset : Option Int) : TodayOutcome :=
  match offset with
  | none => todayFromSecs (now_utc_secs + tz_offset_secs)
  | some o =>
    match tryHours o with
    | none => .panic
    | some dsecs =>
      let shifted := now_utc_secs + dsecs
      if naiveDateTimeInRange shifted then todayFromSecs shifted
      else .panic

/-- UTF-8 encoding of one scalar value (the bytes a Rust `String` stores for
one `char`); used to model diagnostic strings as byte buffers. -/
def encodeChar (c : Nat) : List Nat :=
  if c < 128 then [c]
  else if c < 2048 then [192 + c / 64, 128 + c % 64]
  else if c < 65536 then [224 + c / 4096, 128 + (c / 64) % 64, 128 + c % 64]
  else [240 + c / 262144, 128 + (c / 4096) % 64, 128 + (c / 64) % 64, 128 + c % 64]

/-- The UTF-8 bytes of a string (`String::into_bytes`). -/
def strBytes (s : String) : List Nat :=
  (s.data.map (fun c => encodeChar c.toNat)).flatten

/-- The C result record: `TypstResult { data, len, error }`; `data` holds the
bytes of the transferred buffer. -/
structure TypstResult where
  data : List Nat
  len : Nat
  error : Int
deriving DecidableEq

/-- Model of `make_error`: a failure record carrying the message bytes, `error = 1`. -/
def make_error (msg : String) : TypstResult :=
  { data := strBytes msg, len := (strBytes msg).length, error := 1 }

/-- Display text of a `std::str::Utf8Error` (modelled as reporting the index
where validation stopped, its `valid_up_to` position). -/
def utf8ErrMsg (i : Nat) : String :=
  "invalid utf-8 sequence from index " ++ toString i

/-- The warning lines of a diagnostic: one "warning: ...\n" line per warning,
in order. -/
def warningLines (warnings : List String) : String :=
  String.join (warnings.map (fun w => "warning: " ++ w ++ "\n"))

/-- The error lines of a diagnostic: one "<tag><message>\n" line per error,
in order (tag is "compile error: " or "pdf export error: "). -/
def taggedLines (tag : String) (errors : List String) : String :=
  String.join (errors.map (fun e => tag ++ e ++ "\n"))

/-- Model of `PathBuf::from(str)` on root buffers: split the decoded bytes into
components at '/' (byte 47), dropping empty segments. -/
def pathFromText (t : List Nat) : Path :=
  (t.splitOn 47).filter (fun c => c ≠ [])

/-- Decoding of one optional root buffer in `typst_world_compile`:
present means non-null pointer (`some bytes`), and the code requires
`len > 0`; an undecodable buffer degrades to "not configured" (`None`). -/
def decodeRootBuf (buf : Option (List Nat)) : Option Path :=
  match buf with
  | none => none
  | some bytes =>
    if bytes.length > 0 then
      match from_utf8 bytes with
      | .ok s => some (pathFromText s)
      | .error _ => none
    else none

/-- Model of `typst::compile`'s result: an output (document or error list) plus the
warnings accumulated during compilation. -/
structure CompiledResult (Doc : Type) where
  output : Except (List String) Doc
  warnings : List String

/-- Model of `typst_world_compile`: decode the source as UTF-8 (early failure record on
invalid bytes), decode the two optional root buffers, build the per-call
world, run the opaque compile engine, on success run the opaque PDF renderer,
and encode the outcome.  The engines are parameters (`compileEngine`,
`renderEngine`); they are the only consumers of the world and therefore the
only possible source of filesystem access after the world is built. -/
def typst_world_compile {Font FontInfo Doc : Type} (canon : Path → Option Path)
    (compileEngine : SingleSourceWorld Font FontInfo → CompiledResult Doc)
    (renderEngine : Doc → Except (List String) (List Nat))
    (shared : SharedResources Font FontInfo)
    (source_bytes : List Nat) (root_buf pkg_buf : Option (List Nat)) : TypstResult :=
  match from_utf8 source_bytes with
  | .error i => make_error ("invalid UTF-8 input: " ++ utf8ErrMsg i)
  | .ok source_text =>
    let root := decodeRootBuf root_buf
    let package_cache := decodeRootBuf pkg_buf
    let world := SingleSourceWorld.new canon shared source_text root package_cache
    let result := compileEngine world
    match result.output with
    | .ok document =>
      match renderEngine document with
      | .ok pdf_bytes => { data := pdf_bytes, len := pdf_bytes.length, error := 0 }
      | .error errors =>
        make_error (warningLines result.warnings ++ taggedLines "pdf export error: " errors)
    | .error errors =>
      make_error (warningLines result.warnings ++ taggedLines "compile error: " errors)

/-! Concrete fixtures used to instantiate the theorems below on executable
inputs (a tiny shared-resource set, an identity canonicalizer, small worlds
and ids, and constant engines). -/

/-- A minimal shared-resource set over trivial font types. -/
def sharedU : SharedResources Unit Unit :=
  { library := (), book := [], fonts := [], main_id := { pkg := none, vpath := mainTypPath } }

/-- Identity canonicalizer: every path exists and is already canonical. -/
def canonId : Path → Option Path := fun p => some p

/-- A reader under which no file exists. -/
def readNone : Path → Option (List Nat) := fun _ => none

/-- A world with project root "r" (byte 114) and no package cache. -/
def worldA : SingleSourceWorld Unit Unit :=
  SingleSourceWorld.new canonId sharedU [] (some [[114]]) none

/-- An unscoped reference to file "a" (byte 97). -/
def idA : FileId := { pkg := none, vpath := [[97]] }

/-- A world with neither a project root nor a package cache. -/
def worldNone : SingleSourceWorld Unit Unit :=
  SingleSourceWorld.new canonId sharedU [104] none none

/-- A world with only a package cache "c" (byte 99). -/
def worldP : SingleSourceWorld Unit Unit :=
  SingleSourceWorld.new canonId sharedU [] none (some [[99]])

/-- A package-scoped reference (namespace "n", name "m", version "v") to
file "f". -/
def idP : FileId :=
  { pkg := some { ns := [110], name := [109], version := [118] }, vpath := [[102]] }

/-- A compile engine that always fails with one error and one warning. -/
def ceFailU : SingleSourceWorld Unit Unit → CompiledResult Unit :=
  fun _ => { output := .error ["e1"], warnings := ["w1"] }

/-- A compile engine that always succeeds with one warning. -/
def ceOkU : SingleSourceWorld Unit Unit → CompiledResult Unit :=
  fun _ => { output := .ok (), warnings := ["w1"] }

/-- A renderer that always succeeds with two output bytes. -/
def reOkU : Unit → Except (List String) (List Nat) := fun _ => .ok [1, 2]

/-- A renderer that always fails with one error. -/
def reFailU : Unit → Except (List String) (List Nat) := fun _ => .error ["p1"]

/-- A face decoder for which blob `d : Nat` yields faces `0, …, d-1` (face
`j` is the number `j`) and fails from index `d` on. -/
def fontNewT : Nat → Nat → Option Nat := fun d j => if j < d then some j else none

/-! Helper lemmas about the resolver, shared by several results. -/

/-- An unscoped reference with no configured project root resolves to
`NotFound(vpath)`. -/
theorem resolve_path_unscoped_no_root {Font FontInfo : Type} (canon : Path → Option Path)
    (w : SingleSourceWorld Font FontInfo) (id : FileId)
    (hpkg : id.pkg = none) (hroot : w.root = none) :
    resolve_path canon w id = .error (.NotFound id.vpath) := by
  unfold resolve_path resolve_base
  rw [hpkg, hroot]

/-- A package-scoped reference with no configured package cache resolves to
`NotFound(vpath)`. -/
theorem resolve_path_pkg_no_cache {Font FontInfo : Type} (canon : Path → Option Path)
    (w : SingleSourceWorld Font FontInfo) (id : FileId) (pkg : PackageSpec)
    (hpkg : id.pkg = some pkg) (hcache : w.package_cache = none) :
    resolve_path canon w id = .error (.NotFound id.vpath) := by
  unfold resolve_path resolve_base
  rw [hpkg, hcache]

/-- With both roots unconfigured, every reference resolves to `NotFound`. -/
theorem resolve_path_no_roots {Font FontInfo : Type} (canon : Path → Option Path)
    (w : SingleSourceWorld Font FontInfo) (id : FileId)
    (hroot : w.root = none) (hcache : w.package_cache = none) :
    resolve_path canon w id = .error (.NotFound id.vpath) := by
  cases hpkg : id.pkg with
  | none => exact resolve_path_unscoped_no_root canon w id hpkg hroot
  | some pkg => exact resolve_path_pkg_no_cache canon w id pkg hpkg hcache

/-- C1: when the domain root is configured and both the base root and the
joined candidate canonicalize (to `cb` and `c`), the resolver returns the
canonical candidate `c` exactly when `c` has the canonical base `cb` as a
prefix, and otherwise fails with `AccessDenied` — for every
canonicalization function, hence also when `..` segments or symlinks make
the candidate escape the root. -/
theorem resolve_path_containment {Font FontInfo : Type} (canon : Path → Option Path)
    (w : SingleSourceWorld Font FontInfo) (id : FileId) (b cb c : Path)
    (hbase : resolve_base canon w id = .ok (b, cb))
    (hcanon : canon (b ++ id.vpath) = some c) :
    (resolve_path canon w id = .ok c ↔ cb.isPrefixOf c = true)
    ∧ (cb.isPrefixOf c = false → resolve_path canon w id = .error .AccessDenied) := by
  have hres : resolve_path canon w id =
      if cb.isPrefixOf c then .ok c else .error .AccessDenied := by
    unfold resolve_path
    rw [hbase]
    dsimp only
    rw [hcanon]
  constructor
  · rw [hres]
    by_cases h : cb.isPrefixOf c = true
    · simp [h]
    · simp [h]
  · intro h
    rw [hres, h]
    simp

/-- C1 witness: with the identity canonicalizer, root "r" and reference "a",
the base pair is ("r", "r"), the candidate canonicalizes to "r/a", and the
resolver accepts exactly because "r" is a prefix of "r/a". -/
theorem resolve_path_containment_witness :
    (resolve_path canonId worldA idA = .ok [[114], [97]] ↔
      ([[114]] : Path).isPrefixOf [[114], [97]] = true)
    ∧ (([[114]] : Path).isPrefixOf [[114], [97]] = false →
      resolve_path canonId worldA idA = .error .AccessDenied) :=
  resolve_path_containment canonId worldA idA [[114]] [[114]] [[114], [97]] rfl rfl

/-- C2: whenever the applicable root is not configured (no package cache for
a package-scoped reference; no project root or a failed project-root
canonicalization for an unscoped one), or canonicalizing the package base
root or the joined candidate fails, `resolve_path` fails with
`NotFound(vpath)` — in particular never with `AccessDenied`. -/
theorem resolve_path_notfound_cases {Font FontInfo : Type} (canon : Path → Option Path)
    (w : SingleSourceWorld Font FontInfo) (id : FileId)
    (h : (∃ pkg, id.pkg = some pkg ∧
           (w.package_cache = none ∨
            ∃ cache, w.package_cache = some cache ∧
              canon (cache ++ [pkg.ns, pkg.name, pkg.version]) = none))
       ∨ (id.pkg = none ∧ (w.root = none ∨ w.canonical_root = none))
       ∨ (id.pkg = none ∧
           ∃ sh tx r pc, w = SingleSourceWorld.new canon sh tx (some r) pc ∧ canon r = none)
       ∨ (∃ b cb, resolve_base canon w id = .ok (b, cb) ∧ canon (b ++ id.vpath) = none)) :
    resolve_path canon w id = .error (.NotFound id.vpath) := by
  rcases h with ⟨pkg, hpkg, hc⟩ | ⟨hpkg, hr⟩ | ⟨hpkg, sh, tx, r, pc, hw, hcr⟩ | ⟨b, cb, hok, hcanon⟩
  · rcases hc with hc | ⟨cache, hcache, hcanon⟩
    · exact resolve_path_pkg_no_cache canon w id pkg hpkg hc
    · unfold resolve_path resolve_base
      rw [hpkg, hcache]
      simp [hcanon]
  · rcases hr with hr | hr
    · exact resolve_path_unscoped_no_root canon w id hpkg hr
    · unfold resolve_path resolve_base
      rw [hpkg]
      cases hroot : w.root with
      | none => rfl
      | some b => rw [hr]
  · subst hw
    unfold resolve_path resolve_base
    rw [hpkg]
    simp [SingleSourceWorld.new, hcr]
  · unfold resolve_path
    rw [hok]
    dsimp only
    rw [hcanon]

/-- C2 witness: the unscoped reference "a" against a world with no project
root resolves to `NotFound("a")`. -/
theorem resolve_path_notfound_cases_witness :
    resolve_path canonId worldNone idA = .error (.NotFound [[97]]) :=
  resolve_path_notfound_cases canonId worldNone idA
    (Or.inr (Or.inl ⟨rfl, Or.inl rfl⟩))

/-- C3: for a package-scoped reference with a configured cache, the base root
is the cache joined with namespace, name and version in that order, and
every accepted path has the canonicalized form of that directory as a
prefix; moreover resolution of a package-scoped reference depends only on
the package cache (never on the project root), and resolution of an
unscoped reference depends only on the project-root fields (never on the
package cache). -/
theorem package_resolution_domains {Font FontInfo : Type} (canon : Path → Option Path)
    (w w2 : SingleSourceWorld Font FontInfo) (id id2 : FileId)
    (pkg : PackageSpec) (cache p : Path)
    (hpkg : id.pkg = some pkg) (hcache : w.package_cache = some cache)
    (hid2 : id2.pkg = none) :
    (resolve_path canon w id = .ok p →
      ∃ cb, canon (cache ++ [pkg.ns, pkg.name, pkg.version]) = some cb ∧
        cb.isPrefixOf p = true)
    ∧ (w2.package_cache = w.package_cache →
        resolve_path canon w2 id = resolve_path canon w id)
    ∧ (w2.root = w.root → w2.canonical_root = w.canonical_root →
        resolve_path canon w2 id2 = resolve_path canon w id2) := by
  refine ⟨?_, ?_, ?_⟩
  · intro hok
    unfold resolve_path resolve_base at hok
    rw [hpkg, hcache] at hok
    dsimp only at hok
    cases hcb : canon (cache ++ [pkg.ns, pkg.name, pkg.version]) with
    | none => rw [hcb] at hok; exact absurd hok (by simp)
    | some cb =>
      rw [hcb] at hok
      dsimp only at hok
      cases hcand : canon (cache ++ [pkg.ns, pkg.name, pkg.version] ++ id.vpath) with
      | none => rw [hcand] at hok; exact absurd hok (by simp)
      | some c =>
        rw [hcand] at hok
        dsimp only at hok
        by_cases hpre : cb.isPrefixOf c = true
        · rw [if_pos hpre] at hok
          cases hok
          exact ⟨cb, rfl, hpre⟩
        · rw [if_neg hpre] at hok
          exact absurd hok (by simp)
  · intro hpc
    unfold resolve_path resolve_base
    rw [hpkg, hpc]
  · intro hr hcr
    unfold resolve_path resolve_base
    rw [hid2, hr, hcr]

/-- C3 witness: with cache "c" and package (n, m, v), the reference "f"
resolves to "c/n/m/v/f", whose canonical base "c/n/m/v" is a prefix of it. -/
theorem package_resolution_domains_witness :
    ∃ cb, canonId ([[99]] ++ [[110], [109], [118]]) = some cb ∧
      cb.isPrefixOf [[99], [110], [109], [118], [102]] = true :=
  (package_resolution_domains canonId worldP worldP idP idA
    { ns := [110], name := [109], version := [118] } [[99]]
    [[99], [110], [109], [118], [102]] rfl rfl rfl).1 rfl

/-- The face loop started at `i` yields exactly `k` faces when decoding
succeeds below `i + k`, fails at `i + k`, and the fuel covers the loop. -/
theorem loadFacesFrom_length {Font : Type} (f : Nat → Option Font) :
    ∀ (fuel i k : Nat), k < fuel →
      (∀ j, j < k → (f (i + j)).isSome = true) → (f (i + k)).isNone = true →
      (loadFacesFrom f i fuel).length = k := by
  intro fuel
  induction fuel with
  | zero => intro i k hk; omega
  | succ fuel ih =>
    intro i k hk hsome hnone
    cases k with
    | zero =>
      have hnil : f i = none := by
        rw [← Option.isNone_iff_eq_none]
        simpa using hnone
      unfold loadFacesFrom
      rw [hnil]
      rfl
    | succ k' =>
      have h0 : (f i).isSome = true := by simpa using hsome 0 (Nat.succ_pos k')
      obtain ⟨font, hf⟩ := Option.isSome_iff_exists.mp h0
      unfold loadFacesFrom
      rw [hf]
      have htail : (loadFacesFrom f (i + 1) fuel).length = k' := by
        refine ih (i + 1) k' (Nat.lt_of_succ_lt_succ hk) ?_ ?_
        · intro j hj
          have heq : i + 1 + j = i + (j + 1) := by omega
          rw [heq]
          exact hsome (j + 1) (Nat.succ_lt_succ hj)
        · have heq : i + 1 + k' = i + (k' + 1) := by omega
          rw [heq]
          exact hnone
      simp [htail]

/-- Total face count over a list of blobs: with per-blob counts `ks` (first
failing index of blob `i` is `ks[i]`) and enough fuel, the flattened face
list has length `ks.sum`. -/
theorem flatten_loadFaces_length {FontData Font : Type}
    (fontNew : FontData → Nat → Option Font) (fuel : Nat)
    (ds : List FontData) (ks : List Nat)
    (h : List.Forall₂ (yieldsFaces fontNew) ds ks) (hfuel : ∀ k ∈ ks, k < fuel) :
    ((ds.map (fun d => loadFaces fontNew d fuel)).flatten).length = ks.sum := by
  induction h with
  | nil => simp
  | @cons d k ds' ks' hdk _ ih =>
    have hk : k < fuel := hfuel k (List.mem_cons_self _ _)
    have hhead : (loadFaces fontNew d fuel).length = k := by
      refine loadFacesFrom_length (fontNew d) fuel 0 k hk ?_ ?_
      · intro j hj
        simpa using hdk.1 j hj
      · simpa using hdk.2
    have ihtail := ih (fun k hk => hfuel k (List.mem_cons_of_mem _ hk))
    simp [hhead, ihtail]

/-- C4: for blobs processed bundled-first then caller-supplied, where blob
`i` yields `k_i` decodable faces (decoding attempted at increasing indices
until the first failure), the face table of the constructed
`SharedResources` has length `Σ k_i`, and the font book has exactly one
descriptor per face, entry `i` describing face `i`, in load order. -/
theorem shared_resources_fonts_book {FontData Font FontInfo : Type}
    (fontNew : FontData → Nat → Option Font) (fontInfo : Font → FontInfo)
    (bundled custom : List FontData) (fuel : Nat) (ksb ksc : List Nat)
    (hb : List.Forall₂ (yieldsFaces fontNew) bundled ksb)
    (hc : List.Forall₂ (yieldsFaces fontNew) custom ksc)
    (hfuel : ∀ k ∈ ksb ++ ksc, k < fuel) :
    (SharedResources.new fontNew fontInfo bundled custom fuel).fonts.length =
      (ksb ++ ksc).sum
    ∧ (SharedResources.new fontNew fontInfo bundled custom fuel).book.length =
      (SharedResources.new fontNew fontInfo bundled custom fuel).fonts.length
    ∧ ∀ i, (SharedResources.new fontNew fontInfo bundled custom fuel).book.get? i =
        ((SharedResources.new fontNew fontInfo bundled custom fuel).fonts.get? i).map fontInfo := by
  have hbl : ((bundled.map (fun d => loadFaces fontNew d fuel)).flatten).length = ksb.sum :=
    flatten_loadFaces_length fontNew fuel bundled ksb hb
      (fun k hk => hfuel k (List.mem_append_left _ hk))
  have hcl : ((custom.map (fun d => loadFaces fontNew d fuel)).flatten).length = ksc.sum :=
    flatten_loadFaces_length fontNew fuel custom ksc hc
      (fun k hk => hfuel k (List.mem_append_right _ hk))
  have hbook : (SharedResources.new fontNew fontInfo bundled custom fuel).book =
      (SharedResources.new fontNew fontInfo bundled custom fuel).fonts.map fontInfo := rfl
  refine ⟨?_, ?_, ?_⟩
  · simp [SharedResources.new, hbl, hcl]
  · rw [hbook, List.length_map]
  · intro i
    rw [hbook, List.get?_eq_getElem?, List.get?_eq_getElem?, List.getElem?_map]

/-- C4 witness: under a decoder where blob `d` yields faces `0..d-1`, blobs
bundled `[2]` and custom `[1, 0]` give a face table of length `3 = 2 + 1 + 0`
and a parallel book. -/
theorem shared_resources_fonts_book_witness :
    (SharedResources.new fontNewT (fun f => f * 10) [2] [1, 0] 5).fonts.length =
      (([2] ++ [1, 0] : List Nat)).sum
    ∧ (SharedResources.new fontNewT (fun f => f * 10) [2] [1, 0] 5).book.length =
      (SharedResources.new fontNewT (fun f => f * 10) [2] [1, 0] 5).fonts.length
    ∧ ∀ i, (SharedResources.new fontNewT (fun f => f * 10) [2] [1, 0] 5).book.get? i =
        ((SharedResources.new fontNewT (fun f => f * 10) [2] [1, 0] 5).fonts.get? i).map
          (fun f => f * 10) :=
  shared_resources_fonts_book fontNewT (fun f => f * 10) [2] [1, 0] 5 [2] [1, 0]
    (List.Forall₂.cons (by decide) List.Forall₂.nil)
    (List.Forall₂.cons (by decide) (List.Forall₂.cons (by decide) List.Forall₂.nil))
    (by decide)

/-- C5: for any source buffer that is not valid UTF-8, `typst_world_compile`
returns `make_error` with a diagnostic whose text starts with
"invalid UTF-8 input: " (so it mentions UTF-8 validity) and has status 1;
the result is the same for every canonicalizer, engine, renderer, shared set
and root buffers — the failure is produced before any world is built or any
engine invoked, so no filesystem access can occur. -/
theorem compile_invalid_utf8_early_failure {Font FontInfo Doc : Type}
    (canon : Path → Option Path)
    (ce : SingleSourceWorld Font FontInfo → CompiledResult Doc)
    (re : Doc → Except (List String) (List Nat))
    (shared : SharedResources Font FontInfo)
    (src : List Nat) (rb pb : Option (List Nat)) (i : Nat)
    (h : from_utf8 src = .error i) :
    typst_world_compile canon ce re shared src rb pb =
      make_error ("invalid UTF-8 input: " ++ utf8ErrMsg i)
    ∧ (typst_world_compile canon ce re shared src rb pb).error = 1 := by
  have h1 : typst_world_compile canon ce re shared src rb pb =
      make_error ("invalid UTF-8 input: " ++ utf8ErrMsg i) := by
    unfold typst_world_compile
    rw [h]
  exact ⟨h1, by rw [h1]; rfl⟩

/-- C5 witness: the single byte 0xFF is invalid UTF-8 with error index 0. -/
theorem compile_invalid_utf8_early_failure_witness :
    typst_world_compile canonId ceOkU reOkU sharedU [255] none none =
      make_error ("invalid UTF-8 input: " ++ utf8ErrMsg 0)
    ∧ (typst_world_compile canonId ceOkU reOkU sharedU [255] none none).error = 1 :=
  compile_invalid_utf8_early_failure canonId ceOkU reOkU sharedU [255] none none 0 rfl

/-- C6: with a decodable source, a compile failure yields
`make_error` over all warning lines followed by all "compile error: " lines;
a render failure after a successful compile yields `make_error` over all
warning lines followed by all "pdf export error: " lines; and a fully
successful pipeline yields status 0 with the rendered bytes, the warnings
appearing nowhere; `make_error` always has status 1. -/
theorem compile_pipeline_encoding {Font FontInfo Doc : Type}
    (canon : Path → Option Path)
    (ce : SingleSourceWorld Font FontInfo → CompiledResult Doc)
    (re : Doc → Except (List String) (List Nat))
    (shared : SharedResources Font FontInfo)
    (src : List Nat) (rb pb : Option (List Nat)) (src_text : List Nat)
    (hsrc : from_utf8 src = .ok src_text) :
    (∀ errs warns,
      ce (SingleSourceWorld.new canon shared src_text (decodeRootBuf rb) (decodeRootBuf pb)) =
        { output := .error errs, warnings := warns } →
      typst_world_compile canon ce re shared src rb pb =
        make_error (warningLines warns ++ taggedLines "compile error: " errs))
    ∧ (∀ doc warns errs,
      ce (SingleSourceWorld.new canon shared src_text (decodeRootBuf rb) (decodeRootBuf pb)) =
        { output := .ok doc, warnings := warns } →
      re doc = .error errs →
      typst_world_compile canon ce re shared src rb pb =
        make_error (warningLines warns ++ taggedLines "pdf export error: " errs))
    ∧ (∀ doc warns pdf_bytes,
      ce (SingleSourceWorld.new canon shared src_text (decodeRootBuf rb) (decodeRootBuf pb)) =
        { output := .ok doc, warnings := warns } →
      re doc = .ok pdf_bytes →
      typst_world_compile canon ce re shared src rb pb =
        { data := pdf_bytes, len := pdf_bytes.length, error := 0 })
    ∧ (∀ s, (make_error s).error = 1) := by
  refine ⟨?_, ?_, ?_, fun s => rfl⟩
  · intro errs warns hce
    unfold typst_world_compile
    rw [hsrc]
    dsimp only
    rw [hce]
  · intro doc warns errs hce hre
    unfold typst_world_compile
    rw [hsrc]
    dsimp only
    rw [hce]
    dsimp only
    rw [hre]
  · intro doc warns pdf_bytes hce hre
    unfold typst_world_compile
    rw [hsrc]
    dsimp only
    rw [hce]
    dsimp only
    rw [hre]

/-- C6 witness: a failing compile engine with one warning and one error
produces the "warning:" line followed by the "compile error:" line. -/
theorem compile_pipeline_encoding_witness :
    typst_world_compile canonId ceFailU reOkU sharedU [104] none none =
      make_error (warningLines ["w1"] ++ taggedLines "compile error: " ["e1"]) :=
  (compile_pipeline_encoding canonId ceFailU reOkU sharedU [104] none none [104] rfl).1
    ["e1"] ["w1"] rfl

/-- C7: `source(id)` returns the in-memory main source whenever `id` is the
main identifier, for every canonicalizer and file reader (no resolver or
filesystem dependence); for a non-main id it resolves through the sandboxed
resolver, propagating a `NotFound` resolution failure, turning a failed read
or failed UTF-8 decoding into `NotFound(vpath)`; and with no roots configured
every non-main id fails with `NotFound(vpath)`. -/
theorem source_capability {Font FontInfo : Type} (canon : Path → Option Path)
    (readFile : Path → Option (List Nat)) (w : SingleSourceWorld Font FontInfo)
    (id : FileId) :
    (id = w.source.id →
      ∀ (canon2 : Path → Option Path) (read2 : Path → Option (List Nat)),
        SingleSourceWorld.sourceFn canon2 read2 w id = .ok w.source)
    ∧ (id ≠ w.source.id → ∀ p, resolve_path canon w id = .error (.NotFound p) →
        SingleSourceWorld.sourceFn canon readFile w id = .error (.NotFound p))
    ∧ (id ≠ w.source.id → ∀ path, resolve_path canon w id = .ok path →
        (readFile path = none ∨
          ∃ bytes i, readFile path = some bytes ∧ from_utf8 bytes = .error i) →
        SingleSourceWorld.sourceFn canon readFile w id = .error (.NotFound id.vpath))
    ∧ (w.root = none → w.package_cache = none → id ≠ w.source.id →
        SingleSourceWorld.sourceFn canon readFile w id = .error (.NotFound id.vpath)) := by
  refine ⟨?_, ?_, ?_, ?_⟩
  · intro h canon2 read2
    unfold SingleSourceWorld.sourceFn
    rw [if_pos h]
  · intro h p hres
    unfold SingleSourceWorld.sourceFn
    rw [if_neg h, hres]
  · intro h path hres hread
    unfold SingleSourceWorld.sourceFn
    rw [if_neg h, hres]
    dsimp only
    rcases hread with hread | ⟨bytes, i, hread, hbad⟩
    · rw [hread]
    · rw [hread]
      dsimp only
      rw [hbad]
  · intro hroot hcache h
    unfold SingleSourceWorld.sourceFn
    rw [if_neg h, resolve_path_no_roots canon w id hroot hcache]

/-- C7 witness: on a world with no roots, the main id is answered from
memory even under a reader with no files. -/
theorem source_capability_witness :
    SingleSourceWorld.sourceFn canonId readNone worldNone worldNone.source.id =
      .ok worldNone.source :=
  (source_capability canonId readNone worldNone worldNone.source.id).1 rfl canonId readNone

/-- C8 (refuting the claim as stated): `today` is not total over every signed
hour offset — at offset `i64::MAX` the `chrono::Duration::hours` construction
is out of `TimeDelta` bounds and panics, for every current instant, instead
of returning the "unavailable" result. -/
theorem today_panics_on_extreme_offset (now_utc_secs tz_offset_secs : Int) :
    today now_utc_secs tz_offset_secs (some 9223372036854775807) = .panic := by
  have h : tryHours 9223372036854775807 = none := by decide
  unfold today
  dsimp only
  rw [h]

/-- C9: a present (non-null, non-empty) but undecodable root or package-cache
buffer makes the call behave exactly as if that buffer had been absent: the
domain is unconfigured and the compile call proceeds. -/
theorem invalid_root_buffers_unconfigured {Font FontInfo Doc : Type}
    (canon : Path → Option Path)
    (ce : SingleSourceWorld Font FontInfo → CompiledResult Doc)
    (re : Doc → Except (List String) (List Nat))
    (shared : SharedResources Font FontInfo)
    (src : List Nat) (rb pb : Option (List Nat)) (bytes : List Nat) (i : Nat)
    (hne : bytes ≠ []) (hbad : from_utf8 bytes = .error i) :
    typst_world_compile canon ce re shared src (some bytes) pb =
      typst_world_compile canon ce re shared src none pb
    ∧ typst_world_compile canon ce re shared src rb (some bytes) =
      typst_world_compile canon ce re shared src rb none := by
  have hdec : decodeRootBuf (some bytes) = decodeRootBuf none := by
    unfold decodeRootBuf
    dsimp only
    rw [if_pos (List.length_pos.mpr hne), hbad]
  constructor
  · unfold typst_world_compile
    cases hsrc : from_utf8 src with
    | error j => rfl
    | ok t =>
      dsimp only
      rw [hdec]
  · unfold typst_world_compile
    cases hsrc : from_utf8 src with
    | error j => rfl
    | ok t =>
      dsimp only
      rw [hdec]

/-- C9 witness: the undecodable root buffer 0xFF behaves as "not configured"
in both the project-root and the package-cache positions. -/
theorem invalid_root_buffers_unconfigured_witness :
    typst_world_compile canonId ceOkU reOkU sharedU [104] (some [255]) none =
      typst_world_compile canonId ceOkU reOkU sharedU [104] none none
    ∧ typst_world_compile canonId ceOkU reOkU sharedU [104] none (some [255]) =
      typst_world_compile canonId ceOkU reOkU sharedU [104] none none :=
  invalid_root_buffers_unconfigured canonId ceOkU reOkU sharedU [104] none none [255] 0
    (by decide) rfl

/-- C10: `file(id)` does not special-case the main identifier: with no
project root configured, `file(main_id)` fails with `NotFound` even though
`source(main_id)` succeeds with the in-memory text on the same context. -/
theorem file_main_id_not_special {Font FontInfo : Type} (canon : Path → Option Path)
    (readFile : Path → Option (List Nat)) (w : SingleSourceWorld Font FontInfo)
    (hroot : w.root = none) (hpkg : w.source.id.pkg = none) :
    SingleSourceWorld.file canon readFile w w.source.id =
      .error (.NotFound w.source.id.vpath)
    ∧ SingleSourceWorld.sourceFn canon readFile w w.source.id = .ok w.source := by
  constructor
  · unfold SingleSourceWorld.file
    rw [resolve_path_unscoped_no_root canon w w.source.id hpkg hroot]
  · unfold SingleSourceWorld.sourceFn
    rw [if_pos rfl]

/-- C10 witness: on the rootless world, `file` of the main id is `NotFound`
while `source` of the main id returns the in-memory source. -/
theorem file_main_id_not_special_witness :
    SingleSourceWorld.file canonId readNone worldNone worldNone.source.id =
      .error (.NotFound worldNone.source.id.vpath)
    ∧ SingleSourceWorld.sourceFn canonId readNone worldNone worldNone.source.id =
      .ok worldNone.source :=
  file_main_id_not_special canonId readNone worldNone rfl rfl

end TypstFfi
